import Mathlib

/-!
Verification development for the FlowAI ICT trading-bot pattern-detection core
(`flow_ai_core/ict_analysis.py`).

Modelling conventions (shallow embedding):

* A pandas `DataFrame` of OHLCV rows is a `List Candle`; the `Open`, `High`,
  `Low`, `Close` columns are the fields of `Candle`.  The `DatetimeIndex`
  `df.index` is an ordered sequence of unique timestamps, so a timestamp is
  modelled by the row's position `i : ℕ` (`df.index[i] ↦ i`).
* Python floats are modelled by `ℚ`.
* The swing-annotated frame produced by `identify_swing_points` (the original
  columns plus the boolean `Swing_High` / `Swing_Low` columns) is a
  `List SCandle`.
* Each detector returns a Python list of dicts with a fixed key set; these are
  modelled by structures whose fields are named after the dict keys, and the
  `type` tag stays a `String` with exactly the source's tag values.
* Configuration constants are taken from `flow_ai_core/config.py` defaults
  (`ICT_SWING_LOOKBACK_PERIODS = 10`, `ICT_MSS_SWING_LOOKBACK = 20`,
  `ICT_OB_MIN_BODY_RATIO = 0.3`, `FVG_THRESHOLD = 0.0003`,
  `ICT_PD_ARRAY_LOOKBACK_PERIODS = 50`).  Attributes that the module reads but
  `config.py` never defines (`HTF_BIAS_CONSENSUS_REQUIRED`,
  `ICT_SWEEP_MSS_LOOKBACK_CANDLES`, `price_precision`) are modelled as explicit
  parameters, following the spec's description of configuration as externally
  injected; reason strings abstract the numeric/date formatting that would use
  the missing `price_precision`.
-/

namespace FlowAI

-- Batteries marks the arithmetic on `Rat` `@[irreducible]`, which blocks the
-- elaborator-side evaluation used by `decide` on concrete rational inputs.
-- Restoring the default reducibility locally lets closed computations reduce;
-- it does not change any definition or proof obligation.
attribute [local semireducible] Rat.add Rat.mul Rat.sub Rat.inv

/-- One OHLC row of the input frame (the `Volume` column is never read by the
analysis module and is omitted). -/
structure Candle where
  Open : ℚ
  High : ℚ
  Low : ℚ
  Close : ℚ
  deriving DecidableEq

instance : Inhabited Candle := ⟨⟨0, 0, 0, 0⟩⟩

/-- A row of the swing-annotated frame: the OHLC columns plus the boolean
`Swing_High` / `Swing_Low` columns added by `identify_swing_points`. -/
structure SCandle extends Candle where
  Swing_High : Bool := false
  Swing_Low : Bool := false
  deriving DecidableEq

instance : Inhabited SCandle := ⟨⟨default, false, false⟩⟩

/-- Default of `ICT_SWING_LOOKBACK_PERIODS` in `config.py`. -/
def ICT_SWING_LOOKBACK_PERIODS : ℕ := 10

/-- Default of `ICT_MSS_SWING_LOOKBACK` in `config.py`. -/
def ICT_MSS_SWING_LOOKBACK : ℕ := 20

/-- Default of `ICT_OB_MIN_BODY_RATIO` in `config.py`. -/
def ICT_OB_MIN_BODY_RATIO : ℚ := 3/10

/-- Default of `FVG_THRESHOLD` in `config.py` (`ICT_FVG_THRESHOLD` env var). -/
def FVG_THRESHOLD : ℚ := 3/10000

/-- Default of `ICT_PD_ARRAY_LOOKBACK_PERIODS` in `config.py`. -/
def ICT_PD_ARRAY_LOOKBACK_PERIODS : ℕ := 50

/-- Default of `ICT_PD_RETRACEMENT_LEVELS` in `config.py`
(parsed from `"0.236,0.382,0.5,0.618,0.786"`). -/
def ICT_PD_RETRACEMENT_LEVELS : List ℚ :=
  [236/1000, 382/1000, 5/10, 618/1000, 786/1000]

/-- The basic swing-high test of `identify_swing_points` (line 26-27): the high
at `i` is `≥` every high in the `lookback` candles to the left and `>` every
high in the `lookback` candles to the right. -/
def is_sh_basic (df : List Candle) (lb i : ℕ) : Bool :=
  ((List.range' 1 lb).all fun j =>
    decide ((df.getD i default).High ≥ (df.getD (i - j) default).High)) &&
  ((List.range' 1 lb).all fun j =>
    decide ((df.getD i default).High > (df.getD (i + j) default).High))

/-- The plateau filter of `identify_swing_points` (lines 31-36): when the high
at `i` equals a neighbour's high, the value just beyond that neighbour must be
strictly lower, otherwise `i` is not kept as the peak.  Python's `i-j > 0`
becomes `j < i` (inside the loop `i ≥ lookback ≥ j`, so the subtraction never
goes negative). -/
def is_strict_peak_sh (df : List Candle) (lb i : ℕ) : Bool :=
  (List.range' 1 lb).all fun j =>
    (!(decide ((df.getD i default).High = (df.getD (i - j) default).High) &&
       decide (j < i) &&
       decide ((df.getD i default).High ≤ (df.getD (i - j - 1) default).High))) &&
    (!(decide ((df.getD i default).High = (df.getD (i + j) default).High) &&
       decide (i + j < df.length - 1) &&
       decide ((df.getD i default).High ≤ (df.getD (i + j + 1) default).High)))

/-- The basic swing-low test (lines 41-42), mirror of `is_sh_basic`. -/
def is_sl_basic (df : List Candle) (lb i : ℕ) : Bool :=
  ((List.range' 1 lb).all fun j =>
    decide ((df.getD i default).Low ≤ (df.getD (i - j) default).Low)) &&
  ((List.range' 1 lb).all fun j =>
    decide ((df.getD i default).Low < (df.getD (i + j) default).Low))

/-- The swing-low plateau filter (lines 44-49), mirror of `is_strict_peak_sh`. -/
def is_strict_peak_sl (df : List Candle) (lb i : ℕ) : Bool :=
  (List.range' 1 lb).all fun j =>
    (!(decide ((df.getD i default).Low = (df.getD (i - j) default).Low) &&
       decide (j < i) &&
       decide ((df.getD i default).Low ≥ (df.getD (i - j - 1) default).Low))) &&
    (!(decide ((df.getD i default).Low = (df.getD (i + j) default).Low) &&
       decide (i + j < df.length - 1) &&
       decide ((df.getD i default).Low ≥ (df.getD (i + j + 1) default).Low)))

/-- `identify_swing_points` (lines 11-53): copies the frame, adds all-false
`Swing_High`/`Swing_Low` columns, returns it unchanged when
`len(df) < 2*lookback+1`, and otherwise marks each index
`lookback ≤ i < len(df) - lookback` that passes the basic test and the plateau
filter. -/
def identify_swing_points (df : List Candle) (lb : ℕ) : List SCandle :=
  if df.length < 2 * lb + 1 then
    df.map fun c => { toCandle := c }
  else
    (List.range df.length).map fun i =>
      { toCandle := df.getD i default
        Swing_High := decide (lb ≤ i) && decide (i < df.length - lb) &&
          (is_sh_basic df lb i && is_strict_peak_sh df lb i)
        Swing_Low := decide (lb ≤ i) && decide (i < df.length - lb) &&
          (is_sl_basic df lb i && is_strict_peak_sl df lb i) }

/-- Python's `round(x, 3)` (round half to even at 3 decimals), used for the
`body_ratio` field of an order block.  The model rounds the exact rational;
the binary-float representation error of CPython's `round` is out of scope. -/
def round3 (x : ℚ) : ℚ :=
  let y := x * 1000
  let f : ℤ := y.floor
  let r := y - (f : ℚ)
  let n : ℤ :=
    if r < 1/2 then f
    else if 1/2 < r then f + 1
    else if f % 2 = 0 then f else f + 1
  (n : ℚ) / 1000

/-- One element of the list returned by `identify_order_blocks`: the dict
built at lines 80-87 plus the `type` tag (`bullish_ob` / `bearish_ob`).
`timestamp` is `df.index[i]`, i.e. the position of the origin candle. -/
structure OrderBlock where
  timestamp : ℕ
  ob_top : ℚ
  ob_bottom : ℚ
  ob_midpoint : ℚ
  Open : ℚ
  Close : ℚ
  body_ratio : ℚ
  type : String
  deriving DecidableEq

instance : Inhabited OrderBlock := ⟨⟨0, 0, 0, 0, 0, 0, 0, ""⟩⟩

/-- The body of the loop of `identify_order_blocks` (lines 63-104) at index
`i`: skip zero-range candles, then emit a `bullish_ob` when the origin closes
down with `body_ratio ≥ min_body_ratio` and the next candle closes bullish
above the origin's high with a body above 30% of the origin's range; the
mirrored conditions emit a `bearish_ob`. -/
def ob_at (df : List Candle) (min_body_ratio : ℚ) (i : ℕ) : Option OrderBlock :=
  let c := df.getD i default
  let nxt := df.getD (i + 1) default
  let candle_range := c.High - c.Low
  if candle_range = 0 then none
  else
    let body_size := |c.Close - c.Open|
    let body_ratio := body_size / candle_range
    let next_candle_body := |nxt.Close - nxt.Open|
    if c.Open > c.Close then
      if body_ratio ≥ min_body_ratio ∧ nxt.Close > nxt.Open ∧
          nxt.Close > c.High ∧ next_candle_body > candle_range * (3/10) then
        some ⟨i, c.High, c.Low, (c.High + c.Low) / 2, c.Open, c.Close,
              round3 body_ratio, "bullish_ob"⟩
      else none
    else if c.Close > c.Open then
      if body_ratio ≥ min_body_ratio ∧ nxt.Open > nxt.Close ∧
          nxt.Close < c.Low ∧ next_candle_body > candle_range * (3/10) then
        some ⟨i, c.High, c.Low, (c.High + c.Low) / 2, c.Open, c.Close,
              round3 body_ratio, "bearish_ob"⟩
      else none
    else none

/-- `identify_order_blocks` (lines 55-106): returns `[]` for frames shorter
than 3 rows, otherwise collects `ob_at` over `i ∈ range(1, len(df)-1)`.  The
function receives the swing-annotated frame but never reads the swing columns,
so the model takes the plain candles. -/
def identify_order_blocks (df : List Candle) (min_body_ratio : ℚ) :
    List OrderBlock :=
  if df.length < 3 then []
  else (List.range' 1 (df.length - 2)).filterMap (ob_at df min_body_ratio)

/-- One element of the list returned by `identify_fvg` (lines 163-184).
`timestamp` and `imbalance_candle_timestamp` are both `df.index[i]` (the
middle candle), `detection_candle_timestamp` is `df.index[i+1]`. -/
structure FVG where
  timestamp : ℕ
  detection_candle_timestamp : ℕ
  imbalance_candle_timestamp : ℕ
  type : String
  fvg_bottom : ℚ
  fvg_top : ℚ
  fvg_midpoint : ℚ
  deriving DecidableEq

instance : Inhabited FVG := ⟨⟨0, 0, 0, "", 0, 0, 0⟩⟩

/-- The body of the loop of `identify_fvg` at index `i` (lines 160-184):
a `bullish_fvg` when `Low[i+1] > High[i-1]`, a `bearish_fvg` when
`High[i+1] < Low[i-1]`, each kept only when the gap bottom is positive and
the gap size as a percentage of the bottom reaches the threshold. -/
def fvg_at (df : List Candle) (fvg_threshold : ℚ) (i : ℕ) : Option FVG :=
  let c1 := df.getD (i - 1) default
  let c3 := df.getD (i + 1) default
  if c3.Low > c1.High then
    let fvg_bottom := c1.High
    let fvg_top := c3.Low
    if fvg_bottom > 0 ∧ (fvg_top - fvg_bottom) / fvg_bottom * 100 ≥ fvg_threshold then
      some ⟨i, i + 1, i, "bullish_fvg", fvg_bottom, fvg_top,
            (fvg_bottom + fvg_top) / 2⟩
    else none
  else if c3.High < c1.Low then
    let fvg_bottom := c3.High
    let fvg_top := c1.Low
    if fvg_bottom > 0 ∧ (fvg_top - fvg_bottom) / fvg_bottom * 100 ≥ fvg_threshold then
      some ⟨i, i + 1, i, "bearish_fvg", fvg_bottom, fvg_top,
            (fvg_bottom + fvg_top) / 2⟩
    else none
  else none

/-- `identify_fvg` (lines 153-186): `[]` for frames shorter than 3 rows,
otherwise collects `fvg_at` over `i ∈ range(1, len(df)-1)`. -/
def identify_fvg (df : List Candle) (fvg_threshold : ℚ) : List FVG :=
  if df.length < 3 then []
  else (List.range' 1 (df.length - 2)).filterMap (fvg_at df fvg_threshold)

/-- One element of the list returned by `analyze_market_structure_shift`
(lines 134-137 / 146-149).  `timestamp` is the triggering candle's index,
`broken_swing_ts` the broken swing candle's index (`.name` in the source). -/
structure MSS where
  type : String
  timestamp : ℕ
  break_level : ℚ
  broken_swing_ts : ℕ
  break_candle_close : ℚ
  deriving DecidableEq

instance : Inhabited MSS := ⟨⟨"", 0, 0, 0, 0⟩⟩

/-- The greatest index `j` with `s ≤ j < t` and `p j = true`: the row index of
`history[history[col]].iloc[-1]` for `history = df.iloc[s:t]`. -/
def lastMarked (p : ℕ → Bool) (s : ℕ) : ℕ → Option ℕ
  | 0 => none
  | t + 1 => if t + 1 ≤ s then none
             else if p t then some t else lastMarked p s t

/-- The bullish half of the MSS loop body (lines 125-137): find the most
recent swing high strictly before `i` inside the trailing window; when the
close at `i` breaks above its high, append a `bullish_mss` unless the last
recorded shift already broke the same swing in the same direction. -/
def mss_bull_step (df : List SCandle) (lb : ℕ) (acc : List MSS) (i : ℕ) :
    List MSS :=
  match lastMarked (fun j => (df.getD j default).Swing_High) (i - lb) i with
  | none => acc
  | some j =>
    let c := df.getD i default
    let sh := df.getD j default
    if c.Close > sh.High then
      match acc.getLast? with
      | some m =>
        if m.type = "bullish_mss" ∧ m.broken_swing_ts = j then acc
        else acc ++ [⟨"bullish_mss", i, sh.High, j, c.Close⟩]
      | none => acc ++ [⟨"bullish_mss", i, sh.High, j, c.Close⟩]
    else acc

/-- The bearish half of the MSS loop body (lines 139-149), mirror of
`mss_bull_step`. -/
def mss_bear_step (df : List SCandle) (lb : ℕ) (acc : List MSS) (i : ℕ) :
    List MSS :=
  match lastMarked (fun j => (df.getD j default).Swing_Low) (i - lb) i with
  | none => acc
  | some j =>
    let c := df.getD i default
    let sl := df.getD j default
    if c.Close < sl.Low then
      match acc.getLast? with
      | some m =>
        if m.type = "bearish_mss" ∧ m.broken_swing_ts = j then acc
        else acc ++ [⟨"bearish_mss", i, sl.Low, j, c.Close⟩]
      | none => acc ++ [⟨"bearish_mss", i, sl.Low, j, c.Close⟩]
    else acc

/-- `analyze_market_structure_shift` (lines 108-151): `[]` when
`len(df) < lookback + 1` (the swing columns always exist in the typed model),
otherwise fold the bullish-then-bearish loop body over
`i ∈ range(lookback, len(df))`.  The rolling `avg_range_mss` series is
computed by the source but only used in commented-out code and is omitted. -/
def analyze_market_structure_shift (df : List SCandle) (lb : ℕ) : List MSS :=
  if df.length < lb + 1 then []
  else (List.range' lb (df.length - lb)).foldl
    (fun acc i => mss_bear_step df lb (mss_bull_step df lb acc i) i) []

/-- The dict returned by `get_premium_discount_array` (lines 207-216):
`levels` collects the `level_{v}` entries for each configured ratio in
`(0, 1)`, in configuration order. -/
structure PDArray where
  range_high : ℚ
  range_low : ℚ
  equilibrium : ℚ
  levels : List (ℚ × ℚ)
  current_price_status : String
  deriving DecidableEq

/-- Maximum of a list of rationals (pandas `Series.max` over a nonempty
window; the empty case is guarded before use). -/
def qmax : List ℚ → ℚ
  | [] => 0
  | [x] => x
  | x :: xs => max x (qmax xs)

/-- Minimum of a list of rationals (pandas `Series.min`). -/
def qmin : List ℚ → ℚ
  | [] => 0
  | [x] => x
  | x :: xs => min x (qmin xs)

/-- The trailing window `df.iloc[max(0, idx-lookback) : idx]` used by
`get_premium_discount_array` (line 197). -/
def pd_window (df : List Candle) (idx lb : ℕ) : List Candle :=
  (df.drop (idx - lb)).take (idx - (idx - lb))

/-- `get_premium_discount_array` (lines 188-223): `None` when the index is
inside the lookback or out of range, when the window is empty, or when
`range_high ≤ range_low`; otherwise the range, its equilibrium, one price per
retracement ratio in `(0, 1)`, and the premium/discount status of the close at
`idx`.  `NaN` inputs cannot arise in the rational model, so the `pd.isna`
guard is subsumed by the empty-window guard. -/
def get_premium_discount_array (df : List Candle) (idx lb : ℕ)
    (levels : List ℚ) : Option PDArray :=
  if idx < lb ∨ df.length ≤ idx then none
  else
    let w := pd_window df idx lb
    if w = [] then none
    else
      let range_high := qmax (w.map Candle.High)
      let range_low := qmin (w.map Candle.Low)
      if range_high ≤ range_low then none
      else
        let equilibrium := range_low + (range_high - range_low) * (1/2)
        let lvls := levels.filterMap fun v =>
          if 0 < v ∧ v < 1 then some (v, range_low + (range_high - range_low) * v)
          else none
        let current_price := (df.getD idx default).Close
        let status :=
          if current_price > equilibrium then "premium"
          else if current_price < equilibrium then "discount"
          else "equilibrium"
        some ⟨range_high, range_low, equilibrium, lvls, status⟩

/-- One element of the list returned by `identify_liquidity_pools`
(lines 234-238). -/
structure LiquidityPool where
  type : String
  timestamp : ℕ
  price_level : ℚ
  deriving DecidableEq

/-- `identify_liquidity_pools` (lines 225-240): one `buy_side_liquidity`
record per swing high and one `sell_side_liquidity` record per swing low, in
row order with the buy-side entry first on a row with both marks.  The typed
frame always has the swing columns, so the missing-column guard is vacuous. -/
def identify_liquidity_pools (df : List SCandle) : List LiquidityPool :=
  (List.range df.length).foldr
    (fun i acc =>
      let c := df.getD i default
      (if c.Swing_High then [⟨"buy_side_liquidity", i, c.High⟩] else []) ++
      (if c.Swing_Low then [⟨"sell_side_liquidity", i, c.Low⟩] else []) ++ acc)
    []

/-- `determine_single_htf_bias` (lines 244-267) with the `config.py` default
lookbacks: `NEUTRAL` on insufficient data (`empty` is subsumed by the length
test), `NEUTRAL` when no MSS exists, otherwise the direction of the last MSS.
The source's `bias_reason` interpolates the break level with the undefined
`config.price_precision` and a formatted date; the model keeps the textual
skeleton of that reason without the numeric rendering. -/
def determine_single_htf_bias (df : List Candle) (tf : String) : String × String :=
  if df.length < max ICT_MSS_SWING_LOOKBACK (ICT_SWING_LOOKBACK_PERIODS * 2 + 1) then
    ("NEUTRAL", "Insufficient data on " ++ tf)
  else
    let sw := identify_swing_points df ICT_SWING_LOOKBACK_PERIODS
    let shifts := analyze_market_structure_shift sw ICT_MSS_SWING_LOOKBACK
    match shifts.getLast? with
    | none => ("NEUTRAL", "No recent MSS on " ++ tf ++ ".")
    | some last_mss =>
      let bias_reason := tf ++ " Last MSS: " ++ last_mss.type ++ "."
      if last_mss.type = "bullish_mss" then ("BULLISH", bias_reason)
      else if last_mss.type = "bearish_mss" then ("BEARISH", bias_reason)
      else ("NEUTRAL", "Ambiguous structure on " ++ tf ++ " despite MSS.")

/-- Test for the substring `"min"`, used to model the `min not in tf` check
of `tf_str_to_pandas_freq` (line 274). -/
def containsMin : List Char → Bool
  | 'm' :: 'i' :: 'n' :: _ => true
  | _ :: rest => containsMin rest
  | [] => false

/-- Decimal value of a digit prefix (the multiplier Python's
`pd.to_timedelta` parses from strings such as `"4H"`). -/
def digitsToNat (cs : List Char) : ℕ :=
  cs.foldl (fun a c => a * 10 + (c.toNat - 48)) 0

/-- Duration in seconds of a timeframe string: the composition of
`tf_str_to_pandas_freq` (lines 269-277) with `pd.to_timedelta`, including the
callers `ME to 30D` quick fix (lines 285 and 378).  Digits are parsed as
the multiplier; the unit letter is matched in the source's order
(`d`, `w`, month, `h`, `min`). -/
def tf_seconds (tf : String) : ℚ :=
  let s := tf.data.map Char.toLower
  let n : ℕ := digitsToNat (s.takeWhile Char.isDigit)
  if s.any (fun c => c == 'd') then (n : ℚ) * 86400
  else if s.any (fun c => c == 'w') then (n : ℚ) * 604800
  else if (s.any fun c => c == 'm') && !containsMin s then 30 * 86400
  else if s.any (fun c => c == 'h') then (n : ℚ) * 3600
  else if containsMin s then (n : ℚ) * 60
  else 0

/-- `dict.get` on the HTF data dictionary, modelled as an association list in
insertion order (Python dict keys are unique). -/
def dict_get (d : List (String × List Candle)) (k : String) :
    Option (List Candle) :=
  (d.find? fun p => decide (p.1 = k)).map Prod.snd

/-- Insertion step of the stable descending sort modelling
`sorted(keys, key=..., reverse=True)`: an element is placed before the first
strictly-smaller-or-equal key, so equal keys keep their original order. -/
def insertByDesc (key : String → ℚ) (x : String) : List String → List String
  | [] => [x]
  | y :: ys => if key y ≤ key x then x :: y :: ys else y :: insertByDesc key x ys

/-- Stable insertion sort by descending key, modelling Python's stable
`sorted(..., reverse=True)` (line 284). -/
def sortDescBy (key : String → ℚ) : List String → List String
  | [] => []
  | x :: xs => insertByDesc key x (sortDescBy key xs)

/-- The loop body of `get_overall_htf_bias` (lines 288-296): biases and
reasons accumulated per sorted timeframe; timeframes with no/empty data add a
reason only. -/
def htf_fold_step (d : List (String × List Candle))
    (br : List String × List String) (tf : String) :
    List String × List String :=
  match dict_get d tf with
  | some df =>
    if df ≠ [] then
      let b := determine_single_htf_bias df tf
      (br.1 ++ [b.1], br.2 ++ [b.2])
    else (br.1, br.2 ++ [tf ++ ": No data/empty."])
  | none => (br.1, br.2 ++ [tf ++ ": No data/empty."])

/-- The priority-mode selection loop (lines 308-310): the first non-`NEUTRAL`
bias, `NEUTRAL` when none exists. -/
def prioritySelect : List String → String
  | [] => "NEUTRAL"
  | b :: bs => if b ≠ "NEUTRAL" then b else prioritySelect bs

/-- `get_overall_htf_bias` (lines 279-314).  The source reads the flag
`config.HTF_BIAS_CONSENSUS_REQUIRED`, which `config.py` never defines; the
spec lists `htf_bias_consensus_required` as externally supplied
configuration, so the flag is an explicit `consensus` parameter here. -/
def get_overall_htf_bias (d : List (String × List Candle))
    (consensus : Bool) : String × String :=
  if d = [] then ("NEUTRAL", "No HTF data provided.")
  else
    let sorted_htfs := sortDescBy tf_seconds (d.map Prod.fst)
    let br := sorted_htfs.foldl (htf_fold_step d) ([], [])
    if br.1 = [] then ("NEUTRAL", "HTF bias undetermined (no valid HTF data).")
    else
      let final_bias :=
        if consensus then
          match br.1 with
          | [] => "NEUTRAL"
          | b :: _ =>
            if (br.1.all fun x => decide (x = b)) && decide (b ≠ "NEUTRAL")
            then b else "NEUTRAL"
        else prioritySelect br.1
      (final_bias, String.intercalate " | " (br.2.filter fun r => decide (r ≠ "")))

/-- The bias-only projection of `htf_fold_step`: what one loop iteration adds
to `individual_biases`. -/
def htf_bias_step (d : List (String × List Candle)) (acc : List String)
    (tf : String) : List String :=
  match dict_get d tf with
  | some df =>
    if df ≠ [] then acc ++ [(determine_single_htf_bias df tf).1] else acc
  | none => acc

/-- The list of per-timeframe biases that `get_overall_htf_bias` accumulates,
in descending-timeframe order: the reference value the fusion policy selects
from. -/
def htf_bias_list (d : List (String × List Candle)) : List String :=
  (sortDescBy tf_seconds (d.map Prod.fst)).foldl (htf_bias_step d) []

/-- One entry of the `key_levels` list built by `identify_key_htf_levels`
(lines 350-375): the representative price range, the level/timeframe tags and
the description.  `timestampSec` is the element's timestamp in seconds;
key-level timestamps live on several timeframes at once, so unlike the
single-frame detectors they are modelled in absolute seconds rather than by
row position. -/
structure KeyLevel where
  level_type : String
  timeframe : String
  timestampSec : ℤ
  price_low : ℚ
  price_high : ℚ
  description : String
  deriving DecidableEq

/-- A Python value passed as the `reverse` keyword of `list.sort`.  CPython
parses `reverse` as an integer; `identify_key_htf_levels` passes the list
literal `[True, False]` (line 380). -/
inductive PyArg where
  | int (n : ℤ)
  | boolList (bs : List Bool)
  deriving DecidableEq

/-- CPython's conversion of the `reverse` argument: an `int`/`bool` converts,
any other object (in particular a `list`) raises `TypeError`. -/
def pyArgAsInt : PyArg → Except String ℤ
  | .int n => .ok n
  | .boolList _ => .error "TypeError: list object cannot be interpreted as an integer"

/-- The sort key of line 378-379: `(timeframe duration, |current LTF timestamp
- level timestamp| in seconds)`.  Every record appended by the function has a
`timestamp` key, so the `float(inf)` fallback is unreachable. -/
def key_level_key (now : ℤ) (x : KeyLevel) : ℚ × ℚ :=
  (tf_seconds x.timeframe, |((now - x.timestampSec : ℤ) : ℚ)|)

/-- Lexicographic `≤` on sort keys. -/
def keyLE (a b : ℚ × ℚ) : Bool :=
  decide (a.1 < b.1) || (decide (a.1 = b.1) && decide (a.2 ≤ b.2))

/-- Stable insertion step for an ascending sort: an element goes before the
first entry it is `le`-below, so equal keys keep their original order. -/
def insertStable (le : KeyLevel → KeyLevel → Bool) (x : KeyLevel) :
    List KeyLevel → List KeyLevel
  | [] => [x]
  | y :: ys => if le x y then x :: y :: ys else y :: insertStable le x ys

/-- Stable insertion sort (the model of CPython's stable `list.sort`). -/
def sortStable (le : KeyLevel → KeyLevel → Bool) : List KeyLevel → List KeyLevel
  | [] => []
  | x :: xs => insertStable le x (sortStable le xs)

/-- The `key_levels.sort(key=..., reverse=[True, False])` call at lines
378-380 of `identify_key_htf_levels`: convert the `reverse` argument the way
CPython does, then (were the conversion to succeed) sort stably by the key,
descending when `reverse` is truthy. -/
def key_levels_sort (now : ℤ) (reverseArg : PyArg) (ls : List KeyLevel) :
    Except String (List KeyLevel) :=
  match pyArgAsInt reverseArg with
  | .error e => .error e
  | .ok r =>
    .ok (if r ≠ 0 then
          sortStable (fun a b => keyLE (key_level_key now b) (key_level_key now a)) ls
        else
          sortStable (fun a b => keyLE (key_level_key now a) (key_level_key now b)) ls)

/-- The final sorting step of `identify_key_htf_levels` with the argument the
source actually passes: the list literal `[True, False]`. -/
def identify_key_htf_levels_sort (now : ℤ) (ls : List KeyLevel) :
    Except String (List KeyLevel) :=
  key_levels_sort now (PyArg.boolList [true, false]) ls

/-- The only mutable state the analysis module touches: the process logger.
Each `logger.debug`/`logger.info` call appends one line. -/
structure World where
  log : List String
  deriving DecidableEq

/-- Append one log line (a `logger.debug`/`logger.info` call). -/
def logw (w : World) (s : String) : World := ⟨w.log ++ [s]⟩

/-- A row of the preprocessed LTF frame: OHLC plus the `RSI` column that
`get_ltf_signals` requires. -/
structure PCandle extends Candle where
  RSI : ℚ
  deriving DecidableEq

/-- The signal record of the spec's data model (§3).  `get_ltf_signals` never
completes one — every `signals.append` in the source sits inside placeholder
comments — but the type fixes the shape consumers would receive. -/
structure Signal where
  type : String
  trade_type : String
  price_level : ℚ
  stop_loss_suggestion : ℚ
  rsi_at_signal : ℚ
  htf_bias_at_signal : String
  message_reason : String
  potential_obstacles : List String
  potential_targets : List String
  deriving DecidableEq

/-- `get_ltf_signals` (lines 388-519), value part.  The guards are the
source's: fewer than 50 rows (the `empty`/missing-`RSI` cases are subsumed by
the typed model), then the minimum-history check at the evaluation index
using `ICT_SWEEP_MSS_LOOKBACK_CANDLES` — an attribute `config.py` never
defines, modelled as the explicit `sweep_lb` parameter.  The component
results and the premium/discount array are computed as in the source; the
liquidity-sweep, POI and premium/discount confluence blocks are placeholder
comments and `pass` statements, so no signal is ever appended. -/
def get_ltf_signals (ltf : List PCandle) (overall_htf_bias : String)
    (htf_bias_reason : String) (key_htf_levels : List KeyLevel)
    (sweep_lb : ℕ) : List Signal :=
  if ltf.length < 50 then []
  else
    let dfc := ltf.map PCandle.toCandle
    let dfw := identify_swing_points dfc ICT_SWING_LOOKBACK_PERIODS
    let _all_fvgs := identify_fvg dfc FVG_THRESHOLD
    let _all_order_blocks := identify_order_blocks dfc ICT_OB_MIN_BODY_RATIO
    let _all_market_shifts := analyze_market_structure_shift dfw ICT_MSS_SWING_LOOKBACK
    let _all_liquidity_pools := identify_liquidity_pools dfw
    let eval_candle_idx := ltf.length - 1
    let min_hist_needed := max (max sweep_lb ICT_PD_ARRAY_LOOKBACK_PERIODS)
      (ICT_SWING_LOOKBACK_PERIODS * 2 + 1)
    if eval_candle_idx < min_hist_needed then []
    else
      let _pd_array_info := get_premium_discount_array dfc eval_candle_idx
        ICT_PD_ARRAY_LOOKBACK_PERIODS ICT_PD_RETRACEMENT_LEVELS
      []

/-- `get_ltf_signals` with its logging: exactly one `logger` line per exit
path (lines 393, 407, 517-518). -/
def get_ltf_signals_w (w : World) (ltf : List PCandle)
    (overall_htf_bias htf_bias_reason : String)
    (key_htf_levels : List KeyLevel) (sweep_lb : ℕ) : List Signal × World :=
  let msg :=
    if ltf.length < 50 then
      "LTF DataFrame too short or unsuitable for signal generation."
    else if ltf.length - 1 < max (max sweep_lb ICT_PD_ARRAY_LOOKBACK_PERIODS)
        (ICT_SWING_LOOKBACK_PERIODS * 2 + 1) then
      "Not enough LTF history for full analysis."
    else "No ICT signals generated after all checks."
  (get_ltf_signals ltf overall_htf_bias htf_bias_reason key_htf_levels sweep_lb,
   logw w msg)

/-- `get_overall_htf_bias` with its final `logger.info` line (line 313). -/
def get_overall_htf_bias_w (w : World) (d : List (String × List Candle))
    (consensus : Bool) : (String × String) × World :=
  let r := get_overall_htf_bias d consensus
  (r, logw w ("Overall HTF Bias: " ++ r.1 ++ ". Components: " ++ r.2))

/-- The complete per-cycle output of the analysis pipeline. -/
structure PipelineOut where
  swings : List SCandle
  order_blocks : List OrderBlock
  fvgs : List FVG
  shifts : List MSS
  pools : List LiquidityPool
  pd_array : Option PDArray
  htf_bias : String × String
  key_levels : Except String (List KeyLevel)
  signals : List Signal

/-- One scheduling-tick run of the full pipeline over a fixed candle window
and fixed configuration, threading the logger state through the functions
that write to it.  `key_levels_in` stands for the levels collected before the
final sort of `identify_key_htf_levels` (whose collection phase aborts on
attributes missing from `config.py`; its outcome here is the faithful model
of the final sort call). -/
def run_pipeline (w : World) (ltf : List PCandle)
    (htf : List (String × List Candle)) (consensus : Bool)
    (min_body_ratio fvg_threshold : ℚ) (swing_lb mss_lb pd_lb pd_idx : ℕ)
    (levels : List ℚ) (now : ℤ) (key_levels_in : List KeyLevel)
    (sweep_lb : ℕ) : PipelineOut × World :=
  let dfc := ltf.map PCandle.toCandle
  let sw := identify_swing_points dfc swing_lb
  let obs := identify_order_blocks dfc min_body_ratio
  let fvgs := identify_fvg dfc fvg_threshold
  let shifts := analyze_market_structure_shift sw mss_lb
  let pools := identify_liquidity_pools sw
  let pda := get_premium_discount_array dfc pd_idx pd_lb levels
  let bw := get_overall_htf_bias_w w htf consensus
  let kl := identify_key_htf_levels_sort now key_levels_in
  let sg := get_ltf_signals_w bw.2 ltf bw.1.1 bw.1.2 key_levels_in sweep_lb
  (⟨sw, obs, fvgs, shifts, pools, pda, bw.1, kl, sg.1⟩, sg.2)

/-! ## Helper lemmas -/

/-- Membership in `identify_fvg` comes from `fvg_at` at an interior index. -/
lemma mem_identify_fvg {df : List Candle} {t : ℚ} {g : FVG}
    (hg : g ∈ identify_fvg df t) :
    ∃ i, 1 ≤ i ∧ i + 1 < df.length ∧ fvg_at df t i = some g := by
  unfold identify_fvg at hg
  split at hg
  · exact absurd hg (List.not_mem_nil g)
  · rename_i hlen
    obtain ⟨i, hi, hfi⟩ := List.mem_filterMap.mp hg
    refine ⟨i, ?_, ?_, hfi⟩
    · exact (List.mem_range'_1.mp hi).1
    · have h2 := (List.mem_range'_1.mp hi).2
      omega

/-- Membership in `identify_order_blocks` comes from `ob_at` at an interior
index. -/
lemma mem_identify_order_blocks {df : List Candle} {r : ℚ} {ob : OrderBlock}
    (hob : ob ∈ identify_order_blocks df r) :
    ∃ i, 1 ≤ i ∧ i + 1 < df.length ∧ ob_at df r i = some ob := by
  unfold identify_order_blocks at hob
  split at hob
  · exact absurd hob (List.not_mem_nil ob)
  · rename_i hlen
    obtain ⟨i, hi, hfi⟩ := List.mem_filterMap.mp hob
    refine ⟨i, ?_, ?_, hfi⟩
    · exact (List.mem_range'_1.mp hi).1
    · have h2 := (List.mem_range'_1.mp hi).2
      omega

/-- Everything `fvg_at` certifies about an emitted gap: its index fields, the
positive bottom, the threshold bound, and the gap inequality matching its
direction tag. -/
lemma fvg_at_spec {df : List Candle} {t : ℚ} {i : ℕ} {g : FVG}
    (h : fvg_at df t i = some g) :
    g.timestamp = i ∧ g.detection_candle_timestamp = i + 1 ∧
    0 < g.fvg_bottom ∧
    (g.fvg_top - g.fvg_bottom) / g.fvg_bottom * 100 ≥ t ∧
    (g.type = "bullish_fvg" ∨ g.type = "bearish_fvg") ∧
    (g.type = "bullish_fvg" →
      (df.getD (i + 1) default).Low > (df.getD (i - 1) default).High ∧
      g.fvg_bottom = (df.getD (i - 1) default).High ∧
      g.fvg_top = (df.getD (i + 1) default).Low) ∧
    (g.type = "bearish_fvg" →
      (df.getD (i + 1) default).High < (df.getD (i - 1) default).Low ∧
      g.fvg_bottom = (df.getD (i + 1) default).High ∧
      g.fvg_top = (df.getD (i - 1) default).Low) := by
  simp only [fvg_at] at h
  split at h
  · rename_i hgap
    split at h
    · rename_i hth
      cases h
      refine ⟨rfl, rfl, hth.1, hth.2, Or.inl rfl, fun _ => ⟨hgap, rfl, rfl⟩, fun hb => ?_⟩
      simp at hb
    · exact absurd h (by simp)
  · split at h
    · rename_i hgap
      split at h
      · rename_i hth
        cases h
        refine ⟨rfl, rfl, hth.1, hth.2, Or.inr rfl, fun hb => ?_, fun _ => ⟨hgap, rfl, rfl⟩⟩
        simp at hb
      · exact absurd h (by simp)
    · exact absurd h (by simp)

/-- Everything `ob_at` certifies about an emitted order block: its timestamp
is the origin index and its bounds are the origin candle's `Low` and `High`. -/
lemma ob_at_spec {df : List Candle} {r : ℚ} {i : ℕ} {ob : OrderBlock}
    (h : ob_at df r i = some ob) :
    ob.timestamp = i ∧
    ob.ob_bottom = (df.getD i default).Low ∧
    ob.ob_top = (df.getD i default).High ∧
    ob.Open = (df.getD i default).Open ∧
    (ob.type = "bullish_ob" ∨ ob.type = "bearish_ob") := by
  simp only [ob_at] at h
  split at h
  · exact absurd h (by simp)
  · split at h
    · split at h
      · cases h
        exact ⟨rfl, rfl, rfl, rfl, Or.inl rfl⟩
      · exact absurd h (by simp)
    · split at h
      · split at h
        · cases h
          exact ⟨rfl, rfl, rfl, rfl, Or.inr rfl⟩
        · exact absurd h (by simp)
      · exact absurd h (by simp)

/-! ## Concrete inputs for counterexamples and witnesses -/

/-- Input for C1: origin candle (index 1) closes down with `High = 11` above
its `Open = 10`; the next candle closes bullish above the origin high with a
large body, so a `bullish_ob` is emitted. -/
def exC1 : List Candle := [⟨9, 10, 8, 9⟩, ⟨10, 11, 7, 8⟩, ⟨11, 13, 10, 13⟩]

/-- The single order block `identify_order_blocks exC1 (3/10)` emits. -/
def obC1 : OrderBlock := ⟨1, 11, 7, 9, 10, 8, 1/2, "bullish_ob"⟩

/-- Input for C2: candle 3 gaps above candle 1 (`10.5 > 10`) while the middle
candle closes bearish (`Close 10.6 < Open 11`). -/
def exC2 : List Candle :=
  [⟨95/10, 10, 9, 98/10⟩, ⟨11, 112/10, 104/10, 106/10⟩,
   ⟨106/10, 11, 105/10, 109/10⟩]

/-- The single gap `identify_fvg exC2 1` emits. -/
def fvgC2 : FVG := ⟨1, 2, 1, "bullish_fvg", 10, 21/2, 41/4⟩

/-- Input for C3: a clean bullish three-candle gap of 5%. -/
def exC3 : List Candle :=
  [⟨9, 10, 8, 9⟩, ⟨10, 11, 9, 11⟩, ⟨11, 12, 21/2, 11⟩]

/-- The single gap `identify_fvg exC3 1` emits. -/
def fvgC3 : FVG := ⟨1, 2, 1, "bullish_fvg", 10, 21/2, 41/4⟩

/-- Input for C10: a bullish gap with bottom level 20. -/
def exC10 : List Candle :=
  [⟨19, 20, 18, 19⟩, ⟨20, 22, 19, 21⟩, ⟨21, 23, 21, 22⟩]

/-- The single gap `identify_fvg exC10 1` emits. -/
def fvgC10 : FVG := ⟨1, 2, 1, "bullish_fvg", 20, 21, 41/2⟩

/-! ## C1 — order-block span -/

/-- C1, counterexample.  The claim says a `bullish_ob` spans `[Low, Open]` of
its origin candle (`ob_top` = origin `Open`).  On `exC1` with
`min_body_ratio = 3/10 ∈ (0,1)` the emitted block has `ob_top = 11`, the
origin candle's `High`, while the origin's `Open` is `10`, so the claimed
span fails. -/
theorem C1_order_block_span_counterexample :
    (0 < (3 : ℚ)/10 ∧ (3 : ℚ)/10 < 1) ∧
    identify_order_blocks exC1 (3/10) = [obC1] ∧
    obC1.type = "bullish_ob" ∧
    obC1.ob_top = 11 ∧
    (exC1.getD obC1.timestamp default).Open = 10 ∧
    ¬ obC1.ob_top = (exC1.getD obC1.timestamp default).Open := by
  refine ⟨by decide, by decide, by decide, by decide, by decide, by decide⟩

/-- C1, amended.  Every order block emitted by `identify_order_blocks` —
bullish or bearish — spans the full `[Low, High]` range of its origin candle:
`ob_bottom` is the origin's `Low` and `ob_top` the origin's `High` (not the
`[Low, Open]` / `[Open, High]` body-side intervals of the claim). -/
theorem C1_order_block_span_amended (df : List Candle) (min_body_ratio : ℚ)
    (h0 : 0 < min_body_ratio) (h1 : min_body_ratio < 1) :
    ∀ ob ∈ identify_order_blocks df min_body_ratio,
      ob.timestamp + 1 < df.length ∧
      ob.ob_bottom = (df.getD ob.timestamp default).Low ∧
      ob.ob_top = (df.getD ob.timestamp default).High ∧
      (ob.type = "bullish_ob" ∨ ob.type = "bearish_ob") := by
  intro ob hob
  obtain ⟨i, hi1, hi2, hocc⟩ := mem_identify_order_blocks hob
  obtain ⟨hts, hbot, htop, hopen, htype⟩ := ob_at_spec hocc
  subst hts
  exact ⟨hi2, hbot, htop, htype⟩

/-- C1, witness: the amended statement applied at `exC1`, `3/10`, `obC1`. -/
theorem C1_order_block_span_witness :
    obC1.timestamp + 1 < exC1.length ∧
    obC1.ob_bottom = (exC1.getD obC1.timestamp default).Low ∧
    obC1.ob_top = (exC1.getD obC1.timestamp default).High ∧
    (obC1.type = "bullish_ob" ∨ obC1.type = "bearish_ob") :=
  C1_order_block_span_amended exC1 (3/10) (by decide) (by decide) obC1 (by decide)

/-! ## C2 — FVG emission condition -/

/-- C2, counterexample.  The claim requires a `bullish_fvg` only when the
middle candle closed bullish; `identify_fvg exC2 1` emits a `bullish_fvg`
whose middle candle (index 1) closed bearish (`Close 10.6 < Open 11`). -/
theorem C2_fvg_middle_candle_counterexample :
    identify_fvg exC2 1 = [fvgC2] ∧
    fvgC2.type = "bullish_fvg" ∧
    (exC2.getD fvgC2.timestamp default).Close <
      (exC2.getD fvgC2.timestamp default).Open := by
  refine ⟨by decide, by decide, by decide⟩

/-- C2, amended.  `identify_fvg` emits a `bullish_fvg` for the window centred
at `i` only if `Low[i+1] > High[i-1]`, and a `bearish_fvg` only if
`High[i+1] < Low[i-1]`; the middle candle's direction is not consulted. -/
theorem C2_fvg_gap_condition_amended (df : List Candle) (t : ℚ) :
    ∀ g ∈ identify_fvg df t,
      1 ≤ g.timestamp ∧ g.timestamp + 1 < df.length ∧
      (g.type = "bullish_fvg" ∨ g.type = "bearish_fvg") ∧
      (g.type = "bullish_fvg" →
        (df.getD (g.timestamp + 1) default).Low >
          (df.getD (g.timestamp - 1) default).High) ∧
      (g.type = "bearish_fvg" →
        (df.getD (g.timestamp + 1) default).High <
          (df.getD (g.timestamp - 1) default).Low) := by
  intro g hg
  obtain ⟨i, hi1, hi2, hocc⟩ := mem_identify_fvg hg
  obtain ⟨hts, -, -, -, htype, hbull, hbear⟩ := fvg_at_spec hocc
  subst hts
  exact ⟨hi1, hi2, htype, fun hb => (hbull hb).1, fun hb => (hbear hb).1⟩

/-- C2, witness: the amended statement applied at `exC2`, `1`, `fvgC2`. -/
theorem C2_fvg_gap_condition_witness :
    1 ≤ fvgC2.timestamp ∧ fvgC2.timestamp + 1 < exC2.length ∧
    (fvgC2.type = "bullish_fvg" ∨ fvgC2.type = "bearish_fvg") ∧
    (fvgC2.type = "bullish_fvg" →
      (exC2.getD (fvgC2.timestamp + 1) default).Low >
        (exC2.getD (fvgC2.timestamp - 1) default).High) ∧
    (fvgC2.type = "bearish_fvg" →
      (exC2.getD (fvgC2.timestamp + 1) default).High <
        (exC2.getD (fvgC2.timestamp - 1) default).Low) :=
  C2_fvg_gap_condition_amended exC2 1 fvgC2 (by decide)

/-! ## C3 — FVG threshold -/

/-- C3.  Every gap returned by `identify_fvg` satisfies
`(top - bottom) / bottom * 100 ≥ fvg_threshold_pct`: no emitted FVG falls
below the configured threshold. -/
theorem C3_fvg_threshold_lower_bound (df : List Candle) (t : ℚ) :
    ∀ g ∈ identify_fvg df t,
      (g.fvg_top - g.fvg_bottom) / g.fvg_bottom * 100 ≥ t := by
  intro g hg
  obtain ⟨i, -, -, hocc⟩ := mem_identify_fvg hg
  exact (fvg_at_spec hocc).2.2.2.1

/-- C3, witness: the threshold bound applied at `exC3`, `1`, `fvgC3`. -/
theorem C3_fvg_threshold_witness :
    (fvgC3.fvg_top - fvgC3.fvg_bottom) / fvgC3.fvg_bottom * 100 ≥ 1 :=
  C3_fvg_threshold_lower_bound exC3 1 fvgC3 (by decide)

/-! ## C10 — FVG bottom positivity -/

/-- C10.  Every gap returned by `identify_fvg` has a strictly positive bottom
level: the `fvg_bottom > 0` guard precedes the division in both branches, so
the percentage computation never divides by zero or by a non-positive price,
and the (total) function emits nothing on non-positive-priced input. -/
theorem C10_fvg_bottom_positive (df : List Candle) (t : ℚ) :
    ∀ g ∈ identify_fvg df t, 0 < g.fvg_bottom := by
  intro g hg
  obtain ⟨i, -, -, hocc⟩ := mem_identify_fvg hg
  exact (fvg_at_spec hocc).2.2.1

/-- C10, witness: positivity applied at `exC10`, `1`, `fvgC10`. -/
theorem C10_fvg_bottom_positive_witness : 0 < fvgC10.fvg_bottom :=
  C10_fvg_bottom_positive exC10 1 fvgC10 (by decide)

/-! ## C4 — MSS break levels -/

/-- A `some` answer of `lastMarked` lies in the searched window and is
marked. -/
lemma lastMarked_spec (p : ℕ → Bool) (s : ℕ) :
    ∀ t j, lastMarked p s t = some j → s ≤ j ∧ j < t ∧ p j = true := by
  intro t
  induction t with
  | zero => intro j h; simp [lastMarked] at h
  | succ t ih =>
    intro j h
    unfold lastMarked at h
    split at h
    · exact absurd h (by simp)
    · rename_i hs
      split at h
      · rename_i hp
        cases h
        exact ⟨by omega, by omega, hp⟩
      · obtain ⟨h1, h2, h3⟩ := ih j h
        exact ⟨h1, by omega, h3⟩

/-- What claim C4 asserts of one emitted shift: the broken swing lies
strictly before the triggering candle, inside the trailing `lb`-candle
window; a bullish shift breaks a marked swing high (its `High` is the
recorded level, exceeded by the trigger's close), a bearish one a marked
swing low. -/
def mss_ok (df : List SCandle) (lb : ℕ) (m : MSS) : Prop :=
  (m.type = "bullish_mss" ∨ m.type = "bearish_mss") ∧
  m.broken_swing_ts < m.timestamp ∧
  m.timestamp ≤ m.broken_swing_ts + lb ∧
  m.timestamp < df.length ∧
  (m.type = "bullish_mss" →
    (df.getD m.broken_swing_ts default).Swing_High = true ∧
    m.break_level = (df.getD m.broken_swing_ts default).High ∧
    (df.getD m.timestamp default).Close > m.break_level) ∧
  (m.type = "bearish_mss" →
    (df.getD m.broken_swing_ts default).Swing_Low = true ∧
    m.break_level = (df.getD m.broken_swing_ts default).Low ∧
    (df.getD m.timestamp default).Close < m.break_level)

/-- The bullish step preserves `mss_ok` and only appends sound shifts. -/
lemma mss_bull_step_ok {df : List SCandle} {lb : ℕ} {acc : List MSS} {i : ℕ}
    (hi1 : lb ≤ i) (hi2 : i < df.length)
    (hacc : ∀ m ∈ acc, mss_ok df lb m) :
    ∀ m ∈ mss_bull_step df lb acc i, mss_ok df lb m := by
  intro m hm
  simp only [mss_bull_step] at hm
  split at hm
  · exact hacc m hm
  · rename_i j hlast
    obtain ⟨hj1, hj2, hj3⟩ := lastMarked_spec _ _ _ _ hlast
    have hpush : (df.getD i default).Close > (df.getD j default).High →
        mss_ok df lb ⟨"bullish_mss", i, (df.getD j default).High, j,
          (df.getD i default).Close⟩ :=
      fun hc => ⟨Or.inl rfl, hj2, (by omega : i ≤ j + lb), hi2,
        fun _ => ⟨hj3, rfl, hc⟩, by intro hb; simp at hb⟩
    repeat' split at hm
    all_goals try exact hacc m hm
    all_goals rcases List.mem_append.mp hm with hold | hnew
    all_goals try exact hacc m hold
    all_goals rcases List.mem_singleton.mp hnew with rfl
    all_goals exact hpush (by assumption)

/-- The bearish step preserves `mss_ok` and only appends sound shifts. -/
lemma mss_bear_step_ok {df : List SCandle} {lb : ℕ} {acc : List MSS} {i : ℕ}
    (hi1 : lb ≤ i) (hi2 : i < df.length)
    (hacc : ∀ m ∈ acc, mss_ok df lb m) :
    ∀ m ∈ mss_bear_step df lb acc i, mss_ok df lb m := by
  intro m hm
  simp only [mss_bear_step] at hm
  split at hm
  · exact hacc m hm
  · rename_i j hlast
    obtain ⟨hj1, hj2, hj3⟩ := lastMarked_spec _ _ _ _ hlast
    have hpush : (df.getD i default).Close < (df.getD j default).Low →
        mss_ok df lb ⟨"bearish_mss", i, (df.getD j default).Low, j,
          (df.getD i default).Close⟩ :=
      fun hc => ⟨Or.inr rfl, hj2, (by omega : i ≤ j + lb), hi2,
        by intro hb; simp at hb, fun _ => ⟨hj3, rfl, hc⟩⟩
    repeat' split at hm
    all_goals try exact hacc m hm
    all_goals rcases List.mem_append.mp hm with hold | hnew
    all_goals try exact hacc m hold
    all_goals rcases List.mem_singleton.mp hnew with rfl
    all_goals exact hpush (by assumption)

/-- Folding the loop body over in-range indices preserves `mss_ok`. -/
lemma mss_fold_ok {df : List SCandle} {lb : ℕ} :
    ∀ (l : List ℕ) (acc : List MSS),
      (∀ i ∈ l, lb ≤ i ∧ i < df.length) →
      (∀ m ∈ acc, mss_ok df lb m) →
      ∀ m ∈ l.foldl
        (fun acc i => mss_bear_step df lb (mss_bull_step df lb acc i) i) acc,
        mss_ok df lb m := by
  intro l
  induction l with
  | nil => intro acc _ hacc m hm; exact hacc m hm
  | cons i l ih =>
    intro acc hl hacc m hm
    have hi := hl i (List.mem_cons_self i l)
    refine ih _ (fun j hj => hl j (List.mem_cons_of_mem i hj)) ?_ m hm
    exact mss_bear_step_ok hi.1 hi.2 (mss_bull_step_ok hi.1 hi.2 hacc)

/-- C4.  For every swing-annotated series and positive lookback, each
`bullish_mss` event returned by `analyze_market_structure_shift` breaks the
`High` of a candle marked `Swing_High` lying strictly before the triggering
candle and within the trailing `mss_lookback` window, with the triggering
close strictly above that level; the mirrored property holds for
`bearish_mss` against a marked `Swing_Low`. -/
theorem C4_mss_break_level_sound (df : List SCandle) (lb : ℕ) (hlb : 0 < lb) :
    ∀ m ∈ analyze_market_structure_shift df lb, mss_ok df lb m := by
  intro m hm
  unfold analyze_market_structure_shift at hm
  split at hm
  · exact absurd hm (List.not_mem_nil m)
  · rename_i hlen
    refine mss_fold_ok _ [] (fun i hi => ?_) (by simp) m hm
    have := List.mem_range'_1.mp hi
    omega

/-- Input for the C4 witness: a marked swing high of `10` at index 0, broken
by the close of `11` at index 2 with lookback `2`. -/
def exC4 : List SCandle :=
  [⟨⟨9, 10, 8, 9⟩, true, false⟩, ⟨⟨9, 9, 9, 9⟩, false, false⟩,
   ⟨⟨9, 12, 8, 11⟩, false, false⟩]

/-- The single shift `analyze_market_structure_shift exC4 2` emits. -/
def mssC4 : MSS := ⟨"bullish_mss", 2, 10, 0, 11⟩

/-- C4, witness: the soundness statement applied at `exC4`, lookback `2`,
`mssC4`. -/
theorem C4_mss_break_level_witness : (0 < 2) ∧ mss_ok exC4 2 mssC4 :=
  ⟨by decide, C4_mss_break_level_sound exC4 2 (by decide) mssC4 (by decide)⟩

/-! ## C5 — premium/discount array validity -/

/-- C5.  `get_premium_discount_array` returns `None` whenever the trailing
window's `range_high ≤ range_low` (including the degenerate empty-window and
out-of-range cases), and any returned array places the equilibrium midway
inside the range: `equilibrium = range_low + 0.5 * (range_high - range_low)`
with `range_low ≤ equilibrium ≤ range_high`. -/
theorem C5_premium_discount_array_validity (df : List Candle) (idx lb : ℕ)
    (levels : List ℚ) :
    (qmax ((pd_window df idx lb).map Candle.High) ≤
        qmin ((pd_window df idx lb).map Candle.Low) →
      get_premium_discount_array df idx lb levels = none) ∧
    (∀ pda, get_premium_discount_array df idx lb levels = some pda →
      pda.equilibrium =
        pda.range_low + (pda.range_high - pda.range_low) * (1/2) ∧
      pda.range_low ≤ pda.equilibrium ∧ pda.equilibrium ≤ pda.range_high) := by
  constructor
  · intro hdeg
    simp only [get_premium_discount_array]
    repeat' split
    all_goals rfl
  · intro pda hpda
    simp only [get_premium_discount_array] at hpda
    split at hpda
    · exact absurd hpda (by simp)
    · split at hpda
      · exact absurd hpda (by simp)
      · split at hpda
        · exact absurd hpda (by simp)
        · rename_i hnle
          rw [not_le] at hnle
          cases hpda
          refine ⟨rfl, ?_, ?_⟩
          · show qmin ((pd_window df idx lb).map Candle.Low) ≤
              qmin ((pd_window df idx lb).map Candle.Low) +
                (qmax ((pd_window df idx lb).map Candle.High) -
                  qmin ((pd_window df idx lb).map Candle.Low)) * (1/2)
            linarith
          · show qmin ((pd_window df idx lb).map Candle.Low) +
              (qmax ((pd_window df idx lb).map Candle.High) -
                qmin ((pd_window df idx lb).map Candle.Low)) * (1/2) ≤
              qmax ((pd_window df idx lb).map Candle.High)
            linarith

/-- Input for the C5 witness, degenerate half: a window with
`range_high = range_low = 5`. -/
def exC5a : List Candle := [⟨5, 5, 5, 5⟩, ⟨5, 5, 5, 5⟩]

/-- Input for the C5 witness, proper half: window `[⟨7,10,5,6⟩]`, so
`range_high = 10`, `range_low = 5`. -/
def exC5b : List Candle := [⟨7, 10, 5, 6⟩, ⟨8, 9, 6, 9⟩]

/-- The array `get_premium_discount_array exC5b 1 1 []` returns. -/
def pdaC5 : PDArray := ⟨10, 5, 15/2, [], "premium"⟩

/-- C5, witness: both halves of the validity statement applied at concrete
inputs — `exC5a` has a zero-width window and yields `none`; `exC5b` yields
`pdaC5` whose equilibrium sits midway inside the range. -/
theorem C5_premium_discount_array_witness :
    get_premium_discount_array exC5a 1 1 [] = none ∧
    (pdaC5.equilibrium =
        pdaC5.range_low + (pdaC5.range_high - pdaC5.range_low) * (1/2) ∧
      pdaC5.range_low ≤ pdaC5.equilibrium ∧
      pdaC5.equilibrium ≤ pdaC5.range_high) :=
  ⟨(C5_premium_discount_array_validity exC5a 1 1 []).1 (by decide),
   (C5_premium_discount_array_validity exC5b 1 1 []).2 pdaC5 (by decide)⟩

/-! ## C7 — graceful degradation on short series -/

/-- C7.  A series shorter than `2*lookback+1` gets no `Swing_High` or
`Swing_Low` mark from `identify_swing_points`, and (for the configured
default lookback) `determine_single_htf_bias` on such a series returns
`NEUTRAL` with a reason that starts with `Insufficient data`.  Both model
functions are total, mirroring the no-raise behaviour of the source. -/
theorem C7_insufficient_data_degrades (df : List Candle) (lb : ℕ) (tf : String)
    (h : df.length < 2 * lb + 1) :
    (∀ c ∈ identify_swing_points df lb,
      c.Swing_High = false ∧ c.Swing_Low = false) ∧
    (lb = ICT_SWING_LOOKBACK_PERIODS →
      determine_single_htf_bias df tf =
        ("NEUTRAL", "Insufficient data on " ++ tf) ∧
      ∃ rest, (determine_single_htf_bias df tf).2 =
        "Insufficient data" ++ rest) := by
  constructor
  · intro c hc
    unfold identify_swing_points at hc
    rw [if_pos h] at hc
    obtain ⟨c0, -, rfl⟩ := List.mem_map.mp hc
    exact ⟨rfl, rfl⟩
  · rintro rfl
    have h21 : df.length < 21 := by
      have : 2 * ICT_SWING_LOOKBACK_PERIODS + 1 = 21 := by decide
      omega
    have hcond : df.length <
        max ICT_MSS_SWING_LOOKBACK (ICT_SWING_LOOKBACK_PERIODS * 2 + 1) := by
      have : max ICT_MSS_SWING_LOOKBACK (ICT_SWING_LOOKBACK_PERIODS * 2 + 1)
          = 21 := by decide
      omega
    have heq : determine_single_htf_bias df tf =
        ("NEUTRAL", "Insufficient data on " ++ tf) := by
      unfold determine_single_htf_bias
      rw [if_pos hcond]
    refine ⟨heq, " on " ++ tf, ?_⟩
    rw [heq]
    show "Insufficient data on " ++ tf = "Insufficient data" ++ (" on " ++ tf)
    have hlit : ("Insufficient data on " : String) =
        "Insufficient data" ++ " on " := by decide
    rw [hlit, String.append_assoc]

/-- Input for the C7 witness: a single candle, far below the 21-row minimum. -/
def exC7 : List Candle := [⟨1, 2, 0, 1⟩]

/-- C7, witness: the degradation statement applied at `exC7`, lookback `10`,
timeframe `1d`. -/
theorem C7_insufficient_data_witness :
    (((identify_swing_points exC7 10).getD 0 default).Swing_High = false ∧
      ((identify_swing_points exC7 10).getD 0 default).Swing_Low = false) ∧
    determine_single_htf_bias exC7 "1d" =
      ("NEUTRAL", "Insufficient data on 1d") :=
  ⟨(C7_insufficient_data_degrades exC7 10 "1d" (by decide)).1 _ (by decide),
   ((C7_insufficient_data_degrades exC7 10 "1d" (by decide)).2 rfl).1⟩

/-! ## C6 — priority-mode HTF bias fusion -/

/-- The first component of the bias/reason fold is the bias-only fold. -/
lemma htf_fold_fst (d : List (String × List Candle)) :
    ∀ (l : List String) (b r : List String),
      (l.foldl (htf_fold_step d) (b, r)).1 = l.foldl (htf_bias_step d) b := by
  intro l
  induction l with
  | nil => intro b r; rfl
  | cons tf l ih =>
    intro b r
    simp only [List.foldl_cons]
    rcases hdg : dict_get d tf with - | df
    · rw [show htf_fold_step d (b, r) tf = (b, r ++ [tf ++ ": No data/empty."])
          from by simp [htf_fold_step, hdg],
        show htf_bias_step d b tf = b from by simp [htf_bias_step, hdg]]
      exact ih b _
    · by_cases hdf : df = []
      · rw [show htf_fold_step d (b, r) tf = (b, r ++ [tf ++ ": No data/empty."])
            from by simp [htf_fold_step, hdg, hdf],
          show htf_bias_step d b tf = b from by simp [htf_bias_step, hdg, hdf]]
        exact ih b _
      · rw [show htf_fold_step d (b, r) tf =
              (b ++ [(determine_single_htf_bias df tf).1],
               r ++ [(determine_single_htf_bias df tf).2])
            from by simp [htf_fold_step, hdg, hdf],
          show htf_bias_step d b tf = b ++ [(determine_single_htf_bias df tf).1]
            from by simp [htf_bias_step, hdg, hdf]]
        exact ih _ _

/-- The priority-selection loop returns the first non-`NEUTRAL` element. -/
lemma prioritySelect_eq_find (l : List String) :
    prioritySelect l =
      ((l.find? fun b => decide (b ≠ "NEUTRAL")).getD "NEUTRAL") := by
  induction l with
  | nil => rfl
  | cons b bs ih =>
    by_cases hb : b = "NEUTRAL"
    · subst hb
      simp only [prioritySelect, List.find?]
      rw [if_neg (by simp)]
      simpa using ih
    · simp only [prioritySelect, List.find?]
      rw [if_pos (by simpa using hb)]
      simp [hb]

/-- Input for the C6 scenario: the quiet baseline candle of the 4h series. -/
def baseC6 : Candle := ⟨11, 12, 10, 10⟩

/-- Input for the C6 scenario: a 22-candle 4h series with a swing low of `5`
at index 10, broken bearishly by the close of `4` at index 21 — its last (and
only) MSS is bearish, so its bias is `BEARISH`. -/
def ex4hC6 : List Candle :=
  List.replicate 10 baseC6 ++ [⟨11, 12, 5, 10⟩] ++ List.replicate 10 baseC6 ++
    [⟨11, 12, 3, 4⟩]

/-- Input for the C6 scenario: a one-candle 1d series, which yields `NEUTRAL`
(insufficient data). -/
def ex1dC6 : List Candle := [⟨9, 10, 8, 9⟩]

/-- C6.  In priority mode (`consensus = false`) the overall bias is the first
non-`NEUTRAL` entry of the per-timeframe bias list taken in
descending-timeframe order (`NEUTRAL` when none exists); and on the spec's
scenario D — HTF data `1d ↦ NEUTRAL`, `4h ↦ BEARISH` — the overall bias is
`BEARISH`. -/
theorem C6_priority_mode_bias_fusion :
    (∀ d : List (String × List Candle),
      (get_overall_htf_bias d false).1 =
        ((htf_bias_list d).find? fun b => decide (b ≠ "NEUTRAL")).getD
          "NEUTRAL") ∧
    (get_overall_htf_bias [("1d", ex1dC6), ("4h", ex4hC6)] false).1 =
      "BEARISH" ∧
    (determine_single_htf_bias ex1dC6 "1d").1 = "NEUTRAL" ∧
    (determine_single_htf_bias ex4hC6 "4h").1 = "BEARISH" := by
  refine ⟨?_, by decide, by decide, by decide⟩
  intro d
  by_cases hd : d = []
  · subst hd; rfl
  · simp only [get_overall_htf_bias]
    rw [if_neg hd, htf_fold_fst d _ [] []]
    split
    · rename_i hempty
      rw [show (sortDescBy tf_seconds (d.map Prod.fst)).foldl (htf_bias_step d)
            [] = htf_bias_list d from rfl] at hempty
      rw [hempty]
      rfl
    · show prioritySelect _ = _
      exact prioritySelect_eq_find _

/-! ## C8 — key-level sort -/

/-- A concrete key level reaching the sort call. -/
def klC8 : KeyLevel := ⟨"SwingHigh", "4h", 0, 100, 100, "4h Swing High at 100"⟩

/-- C8, code-bug evaluation.  The final `key_levels.sort` call of
`identify_key_htf_levels` passes `reverse=[True, False]`; CPython converts
`reverse` as an integer, so the call raises `TypeError` — on a populated list
and even on an empty one — and the function never returns the
timeframe-descending, proximity-ascending ordering that the claim (and the
source's own comment on line 380) describes. -/
theorem C8_key_level_sort_type_error :
    identify_key_htf_levels_sort 0 [klC8] =
      Except.error "TypeError: list object cannot be interpreted as an integer" ∧
    identify_key_htf_levels_sort 0 [] =
      Except.error "TypeError: list object cannot be interpreted as an integer" :=
  ⟨rfl, rfl⟩

/-! ## C9 — determinism / log noninterference -/

/-- C9.  One full pipeline tick — swings, order blocks, FVGs, MSS, liquidity
pools, premium/discount array, fused HTF bias, the key-level sort step, and
LTF signal generation — computed twice from the same candle window and the
same configuration yields identical outputs, whatever logger state each run
starts from: the only mutable state the module touches is written to and
never read, and no component draws randomness. -/
theorem C9_pipeline_log_noninterference :
    ∀ (w w' : World) (ltf : List PCandle)
      (htf : List (String × List Candle)) (consensus : Bool)
      (min_body_ratio fvg_threshold : ℚ) (swing_lb mss_lb pd_lb pd_idx : ℕ)
      (levels : List ℚ) (now : ℤ) (key_levels_in : List KeyLevel)
      (sweep_lb : ℕ),
      (run_pipeline w ltf htf consensus min_body_ratio fvg_threshold swing_lb
        mss_lb pd_lb pd_idx levels now key_levels_in sweep_lb).1 =
      (run_pipeline w' ltf htf consensus min_body_ratio fvg_threshold swing_lb
        mss_lb pd_lb pd_idx levels now key_levels_in sweep_lb).1 := by
  intro w w' ltf htf consensus min_body_ratio fvg_threshold swing_lb mss_lb
    pd_lb pd_idx levels now key_levels_in sweep_lb
  rfl

end FlowAI
